import Mathlib

/-!
Shallow embedding of `src/index.ts` of the line-to-email bridge.

The program has two legs:
  * chat-to-email: `textEventHandler` turns one inbound chat webhook event
    into at most one email send (`POST /webhook` maps it over the batch);
  * form-to-chat: the `POST /email` handler turns a multipart form
    submission into an ordered sequence of chat push messages.

External collaborators (the chat client, the email provider, object
storage, the MIME/file-type sniffers, the audio metadata parser) are
modelled as oracle functions bundled in environment records; fallible
collaborator calls return `Except String`.  Bytes are `List Nat`
(each < 256), JavaScript numbers carrying audio durations are `ℚ`.

JavaScript semantics embedded explicitly where they matter:
  * a `switch` jumps to the FIRST case label whose value matches and then
    falls through until `break`.  The source's media `switch` lists
    `case "image": case "video": case "audio": case "file":` before the
    attachment-building statements (no `break`), and a SECOND
    `case "image":` right after them; hence every one of the four media
    kinds runs the attachment code and then falls into that first label
    body, appending `画像メッセージ`.  The later `case "video"` /
    `case "audio"` / `case "file"` label blocks are unreachable.
  * `x ? a : b` tests JavaScript truthiness: `undefined`, `null`, `""`
    and `0` are falsy (`jsTruthyStr`, `jsTruthyNum` below).
  * Express response writes (`res.status(..).json(..)`) are recorded as a
    list of send attempts in program order; the caller observes the first.
-/

set_option autoImplicit false

namespace LineToEmail

/-- Concatenation of the lists produced for each element, in order
(the shape `xs.map f |> join` used to collect per-item effect traces). -/
def concatMap {α β : Type} (f : α → List β) : List α → List β
  | [] => []
  | a :: as => f a ++ concatMap f as

/-- JavaScript truthiness of a possibly-absent string: `undefined` and the
empty string are falsy. -/
def jsTruthyStr : Option String → Bool
  | none => false
  | some s => s ≠ ""

/-- JavaScript truthiness of a possibly-absent number: `undefined` and `0`
are falsy. -/
def jsTruthyNum : Option ℚ → Bool
  | none => false
  | some q => q ≠ 0

/-- The base64 alphabet, as used by `Buffer.prototype.toString("base64")`. -/
def base64Table : List Char :=
  "ABCDEFGHIJKLMNOPQRSTUVWXYZabcdefghijklmnopqrstuvwxyz0123456789+/".toList

/-- The base64 digit for a 6-bit value. -/
def b64c (n : Nat) : Char := base64Table.getD n '='

/-- Standard base64 encoding of a byte list (bytes are `Nat`s < 256),
as `file.toString("base64")` produces in the source. -/
def base64Encode : List Nat → String
  | [] => ""
  | [b1] =>
    String.mk [b64c (b1 / 4 % 64), b64c (b1 % 4 * 16), '=', '=']
  | [b1, b2] =>
    String.mk [b64c (b1 / 4 % 64), b64c (b1 % 4 * 16 + b2 / 16 % 16),
      b64c (b2 % 16 * 4), '=']
  | b1 :: b2 :: b3 :: rest =>
    String.mk [b64c (b1 / 4 % 64), b64c (b1 % 4 * 16 + b2 / 16 % 16),
      b64c (b2 % 16 * 4 + b3 / 64 % 4), b64c (b3 % 64)] ++ base64Encode rest

/-! ## Chat-to-email leg: data model -/

/-- The `message` payload of an inbound chat event, discriminated by
`message.type`.  Media kinds carry the content id (`event.message.id`);
`other` stands for every kind outside the six handled ones
(`default:` in the source's switch). -/
inductive EventMessage : Type
  | text (s : String)
  | image (id : String)
  | video (id : String)
  | audio (id : String)
  | file (id : String)
  | sticker
  | other
  deriving DecidableEq

/-- An inbound webhook event: only `type === "message"` events carry data
the handler reads (`event.source.userId`, possibly absent, and the
message payload); every other event type is a no-op. -/
inductive WebhookEvent : Type
  | message (userId : Option String) (message : EventMessage)
  | nonMessage
  deriving DecidableEq

/-- One email attachment as built by the source:
`{content: base64, type: mime, filename: extension}`. -/
structure Attachment : Type where
  content : String
  type : String
  filename : String
  deriving DecidableEq

/-- The sendgrid mail object `msg`: fixed recipients/sender/subject, a
body built incrementally in `text`, and optional attachments (the field
is absent unless the media branch assigns it). -/
structure Mail : Type where
  toAddr : List String
  fromEmail : String
  fromName : String
  subject : String
  text : String
  attachments : Option (List Attachment)
  deriving DecidableEq

/-- The result of `getContent`: MIME type from the `Content-Type` header,
extension derived from it, and the raw bytes. -/
structure Content : Type where
  fileType : String
  fileExtname : String
  file : List Nat
  deriving DecidableEq

/-- The `fetch` response surface `getContent` reads: the `Content-Type`
header (`null` when missing) and the body bytes. -/
structure FetchRes : Type where
  contentType : Option String
  body : List Nat
  deriving DecidableEq

/-- Collaborators and configuration of the chat-to-email leg:
recipient list parsed from `TOEMAIL`, `client.getProfile` (returns the
profile's `displayName`), the HTTP `fetch` used by `getContent`,
`mime.extension` (`false`/absent for unknown types), and `sgMail.send`. -/
structure ChatEnv : Type where
  toEmailArray : List String
  getProfile : String → Except String String
  fetch : String → Except String FetchRes
  mimeExtension : String → Option String
  send : Mail → Except String Unit

/-- `getContent(eventMessageId)`: fetch the content endpoint, take the
`Content-Type` header (`|| ""`), derive an extension (`|| ""`), return
the bytes. -/
def getContent (env : ChatEnv) (eventMessageId : String) : Except String Content := do
  let res ← env.fetch
    ("https://api-data.line.me/v2/bot/message/" ++ eventMessageId ++ "/content")
  let fileType := match res.contentType with
    | some s => if s ≠ "" then s else ""
    | none => ""
  let fileExtname := match env.mimeExtension fileType with
    | some s => if s ≠ "" then s else ""
    | none => ""
  pure { fileType := fileType, fileExtname := fileExtname, file := res.body }

/-- The greeting owner computed by the template
`event.source.userId ? (await getProfile(..)).displayName + "さん" : "ユーザー"`. -/
def greetingWho (env : ChatEnv) (userId : Option String) : Except String String :=
  if jsTruthyStr userId then
    (env.getProfile (userId.getD "")).map (fun name => name ++ "さん")
  else
    Except.ok "ユーザー"

/-- `textEventHandler`: returns `ok none` for a no-op (non-message event
or unhandled message kind), `ok (some mail)` when `mail` was sent, and
`error e` when a collaborator call threw.  The media branch reflects the
source's switch at runtime: all four media kinds build the single
attachment and then fall through into the first `case "image":` body,
so the appended label is `画像メッセージ` for image, video, audio and
file alike (the later kind-specific label cases are dead code). -/
def textEventHandler (env : ChatEnv) (event : WebhookEvent) :
    Except String (Option Mail) := do
  match event with
  | .nonMessage => pure none
  | .message userId message =>
    let who ← greetingWho env userId
    let msg : Mail :=
      { toAddr := env.toEmailArray
        fromEmail := "line@line-to-email.futa.io"
        fromName := "line-to-email"
        subject := "新着メッセージ"
        text := who ++ "からのメッセージ"
        attachments := none }
    match message with
    | .text s =>
      let msg := { msg with text := msg.text ++ "\n\n" ++ s }
      env.send msg
      pure (some msg)
    | .image contentId | .video contentId | .audio contentId | .file contentId =>
      let c ← getContent env contentId
      let att : Attachment :=
        { content := base64Encode c.file
          type := c.fileType
          filename := c.fileExtname }
      let msg := { msg with attachments := some [att] }
      let msg := { msg with text := msg.text ++ "\n\n画像メッセージ" }
      env.send msg
      pure (some msg)
    | .sticker =>
      let msg := { msg with text := msg.text ++ "\n\nスタンプ" }
      env.send msg
      pure (some msg)
    | .other => pure none

/-! ## Batch webhook handler -/

/-- One element of the `results` array `Promise.all` resolves with: the
map callback returns `undefined` on success and the Express response
object from the per-event `catch`. -/
inductive EvResult : Type
  | ok
  | errRes
  deriving DecidableEq

/-- One `res.status(..).json(..)` write attempt, in program order.  The
HTTP caller observes the first attempt; the source's per-event `catch`
writes a 500, the code after `Promise.all` writes the 200 carrying the
results array. -/
inductive SendAttempt : Type
  | s500
  | s200 (results : List EvResult)
  deriving DecidableEq

/-- Everything observable about one run of the `POST /webhook` handler:
the emails actually sent, the per-event results array, and the response
write attempts in order. -/
structure BatchOutput : Type where
  sent : List Mail
  results : List EvResult
  sends : List SendAttempt
  deriving DecidableEq

/-- Per-event step of the webhook batch: run `textEventHandler` inside
`try/catch`; a caught error logs, writes a 500 response attempt and
yields the response object as that slot's result. -/
def processEvent (env : ChatEnv) (event : WebhookEvent) :
    List Mail × EvResult × List SendAttempt :=
  match textEventHandler env event with
  | .ok om => (om.toList, .ok, [])
  | .error _ => ([], .errRes, [.s500])

/-- The `POST /webhook` handler body after signature verification:
`Promise.all` over the per-event steps (each event's outcome depends only
on that event and the collaborators, so the settled batch is the list of
independent per-event outcomes, results in event order), then one final
200 write carrying the results array.  All per-event 500 writes precede
the final 200 write. -/
def webhookHandler (env : ChatEnv) (events : List WebhookEvent) : BatchOutput :=
  let per := events.map (processEvent env)
  { sent := concatMap (fun x => x.1) per
    results := per.map (fun x => x.2.1)
    sends := concatMap (fun x => x.2.2) per ++ [.s200 (per.map (fun x => x.2.1))] }

/-! ## Form-to-chat leg: data model -/

/-- One uploaded multipart file as multer presents it:
`{buffer, originalname}`. -/
structure FormFile : Type where
  buffer : List Nat
  originalname : String
  deriving DecidableEq

/-- The `POST /email` request: the three form fields plus the uploaded
files in submission order. -/
structure FormReq : Type where
  fromAddr : String
  subject : String
  text : String
  files : List FormFile
  deriving DecidableEq

/-- One outbound chat message (`Message` of the chat SDK) as the source
builds them. -/
inductive Message : Type
  | text (text : String)
  | image (originalContentUrl : String) (previewImageUrl : String)
  | video (originalContentUrl : String) (previewImageUrl : String)
  | audio (originalContentUrl : String) (duration : ℚ)
  deriving DecidableEq

/-- One object-storage side effect: `gcsFile.save(buffer)` or
`gcsFile.makePublic()`, identified by the storage key. -/
inductive StorageEffect : Type
  | save (key : String) (buf : List Nat)
  | makePublic (key : String)
  deriving DecidableEq

/-- One `client.pushMessage(to, message)` call. -/
structure PushCall : Type where
  toAddr : String
  message : Message
  deriving DecidableEq

/-- Collaborators and configuration of the form-to-chat leg: the fixed
group target, `FileType.fromBuffer(..)?.mime` (absent when the sniffer
cannot classify), `uuidv4()` modelled as a fresh value per call indexed
by call count, `gcsFile.publicUrl()` as a function of the key, and the
duration in seconds that `mm.parseBuffer` extracts (`undefined` when
indeterminable). -/
structure FormEnv : Type where
  groupId : String
  sniff : List Nat → Option String
  uuid : Nat → String
  publicUrl : String → String
  audioDuration : List Nat → Option ℚ

/-- The storage key built for the `idx`-th file:
`line-to-email/${uuidv4()}-${fileName}`. -/
def gcsKey (env : FormEnv) (idx : Nat) (f : FormFile) : String :=
  "line-to-email/" ++ env.uuid idx ++ "-" ++ f.originalname

/-- The loop body run for the `idx`-th uploaded file: sniff the content
type from the buffer, save the buffer under a fresh key, make it public,
take its public URL, then classify into at most one chat message.  The
source's `switch` on the sniffed type is embedded as its runtime
semantics: an ordered chain of strict-equality tests, `default:`
dropping the file silently.  The audio duration field is
`metadata.format.duration ? duration * 1000 : 0`. -/
def classifyFile (env : FormEnv) (idx : Nat) (f : FormFile) :
    List StorageEffect × Option Message :=
  let fileType := env.sniff f.buffer
  let key := gcsKey env idx f
  let effects : List StorageEffect := [.save key f.buffer, .makePublic key]
  let fileUrl := env.publicUrl key
  let msg : Option Message :=
    if fileType = some "image/jpeg" ∨ fileType = some "image/png" then
      some (.image fileUrl fileUrl)
    else if fileType = some "video/mp4" ∨ fileType = some "video/x-m4v" then
      some (.video fileUrl fileUrl)
    else if fileType = some "audio/mp4" ∨ fileType = some "audio/x-m4a" then
      let duration : ℚ :=
        if jsTruthyNum (env.audioDuration f.buffer) then
          (env.audioDuration f.buffer).getD 0 * 1000
        else 0
      some (.audio fileUrl duration)
    else none
  (effects, msg)

/-- Everything observable about one run of the `POST /email` handler:
the storage side effects in order, the push calls in order, and the HTTP
status of the response. -/
structure EmailOutput : Type where
  storage : List StorageEffect
  pushes : List PushCall
  status : Nat
  deriving DecidableEq

/-- The leading text message, always built from the three form fields:
`From: {from}\nSubject: {subject}\n\n{text}`. -/
def leadTextMessage (req : FormReq) : Message :=
  .text ("From: " ++ req.fromAddr ++ "\nSubject: " ++ req.subject
    ++ "\n\n" ++ req.text)

/-- The `POST /email` handler body: start `messageArray` with the text
message, process the files sequentially in submission order (each
contributing its storage effects and at most one message), then push
every element of `messageArray`, in array order, one
`client.pushMessage(groupId, message)` call per element, and answer 200. -/
def emailHandler (env : FormEnv) (req : FormReq) : EmailOutput :=
  let per := (req.files.enum).map (fun p => classifyFile env p.1 p.2)
  let messageArray : List Message :=
    leadTextMessage req :: per.filterMap (fun x => x.2)
  { storage := concatMap (fun x => x.1) per
    pushes := messageArray.map (fun m => { toAddr := env.groupId, message := m })
    status := 200 }

/-! ## Concrete fixtures used by witnesses and counterexamples -/

/-- A concrete chat environment: user `U1` has display name `Alice`,
every other user id makes `getProfile` throw; content fetches answer
with a `video/mp4` body of three bytes; email sends succeed. -/
def testChatEnv : ChatEnv :=
  { toEmailArray := ["a@example.com"]
    getProfile := fun u => if u = "U1" then .ok "Alice" else .error "profile-fail"
    fetch := fun _ => .ok { contentType := some "video/mp4", body := [0, 1, 2] }
    mimeExtension := fun t => if t = "video/mp4" then some "mp4" else none
    send := fun _ => .ok () }

/-- A concrete form environment whose sniffer and audio parser give the
supplied constant answers. -/
def mkFormEnv (sniffResult : Option String) (dur : Option ℚ) : FormEnv :=
  { groupId := "G1"
    sniff := fun _ => sniffResult
    uuid := fun n => toString n
    publicUrl := fun k => "https://storage.googleapis.com/bucket/" ++ k
    audioDuration := fun _ => dur }

/-- A concrete uploaded file. -/
def testFormFile : FormFile := { buffer := [9, 9], originalname := "a.bin" }

/-- A concrete form submission carrying one file. -/
def testFormReq : FormReq :=
  { fromAddr := "alice@example.com", subject := "Hello", text := "Body"
    files := [testFormFile] }

/-- A concrete form submission with no files. -/
def testFormReqNoFiles : FormReq :=
  { fromAddr := "alice@example.com", subject := "Hello", text := "Body"
    files := [] }

/-! ## Helper lemmas -/

@[simp] theorem concatMap_nil {α β : Type} (f : α → List β) :
    concatMap f [] = [] := rfl

@[simp] theorem concatMap_cons {α β : Type} (f : α → List β) (a : α) (as : List α) :
    concatMap f (a :: as) = f a ++ concatMap f as := rfl

theorem concatMap_map {α β γ : Type} (g : α → β) (f : β → List γ) (l : List α) :
    concatMap f (l.map g) = concatMap (fun a => f (g a)) l := by
  induction l with
  | nil => rfl
  | cons a as ih => simp [ih]

/-- Binding a thrown `Except` short-circuits. -/
theorem except_error_bind {α β : Type} (e : String) (f : α → Except String β) :
    (Except.error e >>= f) = Except.error e := rfl

/-- Binding a returned `Except` continues. -/
theorem except_ok_bind {α β : Type} (a : α) (f : α → Except String β) :
    (Except.ok a >>= f : Except String β) = f a := rfl

/-- A failed profile fetch aborts `textEventHandler` with that error for
every message kind: the fetch sits before the dispatch switch. -/
theorem textEventHandler_getProfile_error (env : ChatEnv) (u : String)
    (m : EventMessage) (e : String) (hu : u ≠ "")
    (hp : env.getProfile u = Except.error e) :
    textEventHandler env (.message (some u) m) = Except.error e := by
  have hg : greetingWho env (some u) = Except.error e := by
    simp [greetingWho, jsTruthyStr, hu, hp, Except.map]
  cases m <;>
    simp [textEventHandler, hg, except_error_bind]

/-! ## Claim theorems -/

/-- C1 (code bug): for a media event of kind `video`, the email does get
exactly one attachment whose base64 content is the fetched bytes, but the
body label appended is `画像メッセージ`, not the kind-specific
`動画メッセージ` the spec states: all four media kinds fall through into
the first `case "image":` body, so the kind-specific label cases for
video/audio/file are dead code. -/
theorem textEventHandler_video_gets_image_label :
    textEventHandler testChatEnv (WebhookEvent.message none (EventMessage.video "mid")) =
      Except.ok (some
        { toAddr := ["a@example.com"]
          fromEmail := "line@line-to-email.futa.io"
          fromName := "line-to-email"
          subject := "新着メッセージ"
          text := "ユーザーからのメッセージ\n\n画像メッセージ"
          attachments := some [{ content := base64Encode [0, 1, 2]
                                 type := "video/mp4"
                                 filename := "mp4" }] })
    ∧ ("ユーザーからのメッセージ\n\n画像メッセージ" : String)
        ≠ "ユーザーからのメッセージ\n\n動画メッセージ" :=
  ⟨rfl, by decide⟩

/-- C2 (code bug): when an event in a verified batch throws (here: its
profile fetch fails), the per-event `catch` writes a 500 response before
the handler's final 200-with-results write, so the caller does not see a
single 200: the first response write attempt is the 500. -/
theorem webhookHandler_event_error_sends_500_first :
    (webhookHandler testChatEnv
        [WebhookEvent.message (some "U2") (EventMessage.text "hi")]).sends
      = [SendAttempt.s500, SendAttempt.s200 [EvResult.errRes]]
    ∧ (webhookHandler testChatEnv
        [WebhookEvent.message (some "U2") (EventMessage.text "hi")]).sends.head?
      ≠ some (SendAttempt.s200 [EvResult.errRes]) :=
  ⟨rfl, by decide⟩

/-- C10: the profile fetch happens before the dispatch on the message
kind, so for a message kind outside the six handled ones a failing fetch
still propagates as that event's error, while a succeeding fetch ends in
a no-op (no email sent). -/
theorem textEventHandler_profile_fetch_before_dispatch (env : ChatEnv)
    (u e name : String) (hu : u ≠ "") :
    (env.getProfile u = Except.error e →
      textEventHandler env (WebhookEvent.message (some u) EventMessage.other)
        = Except.error e) ∧
    (env.getProfile u = Except.ok name →
      textEventHandler env (WebhookEvent.message (some u) EventMessage.other)
        = Except.ok none) := by
  constructor
  · intro hp
    exact textEventHandler_getProfile_error env u EventMessage.other e hu hp
  · intro hp
    simp [textEventHandler, greetingWho, jsTruthyStr, hu, hp, Except.map,
      except_ok_bind]

/-- C10 witness at the concrete environment: user `U2`'s profile fetch
fails, and the failure is the unhandled-kind event's outcome. -/
theorem textEventHandler_profile_fetch_before_dispatch_witness :
    (testChatEnv.getProfile "U2" = Except.error "profile-fail" →
      textEventHandler testChatEnv (WebhookEvent.message (some "U2") EventMessage.other)
        = Except.error "profile-fail") ∧
    (testChatEnv.getProfile "U2" = Except.ok "Alice" →
      textEventHandler testChatEnv (WebhookEvent.message (some "U2") EventMessage.other)
        = Except.ok none) :=
  textEventHandler_profile_fetch_before_dispatch testChatEnv "U2" "profile-fail" "Alice"
    (by decide)

/-- C4: events of one batch are processed independently: with a 3-event
batch whose middle event throws during its profile fetch, the emails of
events 1 and 3 are still sent (in that order) and the results array marks
slots 1 and 3 as successes; `webhookHandler` is total, so the caught
event error never escapes the batch handler's event-processing stage. -/
theorem webhookHandler_event_isolation (env : ChatEnv) (e1 e3 : WebhookEvent)
    (u err : String) (msg2 : EventMessage) (m1 m3 : Mail)
    (hu : u ≠ "") (hp : env.getProfile u = Except.error err)
    (h1 : textEventHandler env e1 = Except.ok (some m1))
    (h3 : textEventHandler env e3 = Except.ok (some m3)) :
    (webhookHandler env [e1, WebhookEvent.message (some u) msg2, e3]).sent
      = [m1, m3] ∧
    (webhookHandler env [e1, WebhookEvent.message (some u) msg2, e3]).results
      = [EvResult.ok, EvResult.errRes, EvResult.ok] := by
  have h2 := textEventHandler_getProfile_error env u msg2 err hu hp
  constructor <;>
    simp [webhookHandler, processEvent, h1, h2, h3]

/-- C4 witness: a concrete 3-event batch (text message from `U1`, text
message from the failing `U2`, sticker message without user id). -/
theorem webhookHandler_event_isolation_witness :
    (webhookHandler testChatEnv
        [WebhookEvent.message (some "U1") (EventMessage.text "hi"),
         WebhookEvent.message (some "U2") (EventMessage.text "boom"),
         WebhookEvent.message none EventMessage.sticker]).sent
      = [{ toAddr := ["a@example.com"]
           fromEmail := "line@line-to-email.futa.io"
           fromName := "line-to-email"
           subject := "新着メッセージ"
           text := "Aliceさんからのメッセージ\n\nhi"
           attachments := none },
         { toAddr := ["a@example.com"]
           fromEmail := "line@line-to-email.futa.io"
           fromName := "line-to-email"
           subject := "新着メッセージ"
           text := "ユーザーからのメッセージ\n\nスタンプ"
           attachments := none }] ∧
    (webhookHandler testChatEnv
        [WebhookEvent.message (some "U1") (EventMessage.text "hi"),
         WebhookEvent.message (some "U2") (EventMessage.text "boom"),
         WebhookEvent.message none EventMessage.sticker]).results
      = [EvResult.ok, EvResult.errRes, EvResult.ok] :=
  webhookHandler_event_isolation testChatEnv
    (WebhookEvent.message (some "U1") (EventMessage.text "hi"))
    (WebhookEvent.message none EventMessage.sticker)
    "U2" "profile-fail" (EventMessage.text "boom") _ _
    (by decide) rfl rfl rfl

/-- C5: a text message event produces an email whose body is the
greeting line, a blank line, then the literal message text, with no
attachment; the greeting is `{displayName}さんからのメッセージ` when the
event carries a (nonempty) source user id and `ユーザーからのメッセージ`
when it carries none. -/
theorem textEventHandler_text_body (env : ChatEnv) (u name s : String)
    (hsend : ∀ m, env.send m = Except.ok ())
    (hu : u ≠ "") (hp : env.getProfile u = Except.ok name) :
    (textEventHandler env (WebhookEvent.message (some u) (EventMessage.text s)) =
      Except.ok (some
        { toAddr := env.toEmailArray
          fromEmail := "line@line-to-email.futa.io"
          fromName := "line-to-email"
          subject := "新着メッセージ"
          text := name ++ "さんからのメッセージ" ++ "\n\n" ++ s
          attachments := none })) ∧
    (textEventHandler env (WebhookEvent.message none (EventMessage.text s)) =
      Except.ok (some
        { toAddr := env.toEmailArray
          fromEmail := "line@line-to-email.futa.io"
          fromName := "line-to-email"
          subject := "新着メッセージ"
          text := "ユーザーからのメッセージ" ++ "\n\n" ++ s
          attachments := none })) := by
  constructor
  · simp [textEventHandler, greetingWho, jsTruthyStr, hu, hp, Except.map,
      except_ok_bind, hsend, String.append_assoc]
    rfl
  · simp [textEventHandler, greetingWho, jsTruthyStr, Except.map,
      except_ok_bind, hsend, String.append_assoc]
    rfl

/-- C5 witness: a text event from `U1` (display name `Alice`) and one
from an id-less source, at the concrete environment. -/
theorem textEventHandler_text_body_witness :
    (textEventHandler testChatEnv (WebhookEvent.message (some "U1") (EventMessage.text "hi")) =
      Except.ok (some
        { toAddr := ["a@example.com"]
          fromEmail := "line@line-to-email.futa.io"
          fromName := "line-to-email"
          subject := "新着メッセージ"
          text := "Alice" ++ "さんからのメッセージ" ++ "\n\n" ++ "hi"
          attachments := none })) ∧
    (textEventHandler testChatEnv (WebhookEvent.message none (EventMessage.text "hi")) =
      Except.ok (some
        { toAddr := ["a@example.com"]
          fromEmail := "line@line-to-email.futa.io"
          fromName := "line-to-email"
          subject := "新着メッセージ"
          text := "ユーザーからのメッセージ" ++ "\n\n" ++ "hi"
          attachments := none })) :=
  textEventHandler_text_body testChatEnv "U1" "Alice" "hi"
    (fun _ => rfl) (by decide) rfl

/-- The JavaScript ternary `d ? d * 1000 : 0` agrees with the plain
case split on the optional duration, because a known duration of `0`
seconds also yields `0 = 0 * 1000` milliseconds. -/
theorem duration_ternary_eq (od : Option ℚ) :
    (if jsTruthyNum od then od.getD 0 * 1000 else 0) =
      match od with
      | some d => d * 1000
      | none => 0 := by
  cases od with
  | none => rfl
  | some d =>
    by_cases h : d = 0
    · subst h; simp [jsTruthyNum]
    · simp [jsTruthyNum, h]

/-- C3: for a submission with one audio file (sniffed `audio/mp4`), the
pushed messages are the text message followed by one audio message whose
duration is `D * 1000` when the parsed duration is a known `D` seconds
and `0` when it is undetermined. -/
theorem emailHandler_audio_duration (env : FormEnv) (req : FormReq) (f : FormFile)
    (hf : req.files = [f]) (hs : env.sniff f.buffer = some "audio/mp4") :
    (emailHandler env req).pushes.map (fun c => c.message) =
      [leadTextMessage req,
       Message.audio (env.publicUrl (gcsKey env 0 f))
         (match env.audioDuration f.buffer with
          | some d => d * 1000
          | none => 0)] := by
  simp [emailHandler, hf, classifyFile, hs, duration_ternary_eq]

/-- C3 witness: a five-second audio file yields duration `5000`; the
same file with an undetermined duration yields `0`. -/
theorem emailHandler_audio_duration_witness :
    (emailHandler (mkFormEnv (some "audio/mp4") (some 5)) testFormReq).pushes.map
        (fun c => c.message)
      = [leadTextMessage testFormReq,
         Message.audio
           "https://storage.googleapis.com/bucket/line-to-email/0-a.bin" 5000] ∧
    (emailHandler (mkFormEnv (some "audio/mp4") none) testFormReq).pushes.map
        (fun c => c.message)
      = [leadTextMessage testFormReq,
         Message.audio
           "https://storage.googleapis.com/bucket/line-to-email/0-a.bin" 0] := by
  constructor
  · have h := emailHandler_audio_duration (mkFormEnv (some "audio/mp4") (some 5))
      testFormReq testFormFile rfl rfl
    rw [h]
    norm_num [mkFormEnv, gcsKey, testFormFile]
    rfl
  · have h := emailHandler_audio_duration (mkFormEnv (some "audio/mp4") none)
      testFormReq testFormFile rfl rfl
    rw [h]
    norm_num [mkFormEnv, gcsKey, testFormFile]
    rfl

/-- C6: for a submission with one JPEG file, exactly two push calls are
made, in array order, each a separate single-recipient call to the group
target: first the text message, then an image message whose original and
preview URLs both equal the uploaded file's public URL. -/
theorem emailHandler_single_jpeg_pushes (env : FormEnv) (req : FormReq) (f : FormFile)
    (hf : req.files = [f]) (hs : env.sniff f.buffer = some "image/jpeg") :
    (emailHandler env req).pushes =
      [{ toAddr := env.groupId, message := leadTextMessage req },
       { toAddr := env.groupId,
         message := Message.image (env.publicUrl (gcsKey env 0 f))
           (env.publicUrl (gcsKey env 0 f)) }] := by
  simp [emailHandler, hf, classifyFile, hs]

/-- C6 witness: the concrete one-JPEG submission. -/
theorem emailHandler_single_jpeg_pushes_witness :
    (emailHandler (mkFormEnv (some "image/jpeg") none) testFormReq).pushes =
      [{ toAddr := "G1", message := Message.text "From: alice@example.com\nSubject: Hello\n\nBody" },
       { toAddr := "G1",
         message := Message.image
           "https://storage.googleapis.com/bucket/line-to-email/0-a.bin"
           "https://storage.googleapis.com/bucket/line-to-email/0-a.bin" }] := by
  have h := emailHandler_single_jpeg_pushes (mkFormEnv (some "image/jpeg") none)
    testFormReq testFormFile rfl rfl
  rw [h]; rfl

/-- C7: for a submission with no files, exactly one message is pushed, a
text message built from the three form fields as
`From: {from}\nSubject: {subject}\n\n{text}`. -/
theorem emailHandler_no_files_single_text_push (env : FormEnv) (req : FormReq)
    (hf : req.files = []) :
    (emailHandler env req).pushes =
      [{ toAddr := env.groupId
         message := Message.text ("From: " ++ req.fromAddr ++ "\nSubject: "
           ++ req.subject ++ "\n\n" ++ req.text) }] := by
  simp [emailHandler, hf, leadTextMessage]

/-- C7 witness: the concrete file-less submission. -/
theorem emailHandler_no_files_single_text_push_witness :
    (emailHandler (mkFormEnv none none) testFormReqNoFiles).pushes =
      [{ toAddr := "G1"
         message := Message.text "From: alice@example.com\nSubject: Hello\n\nBody" }] := by
  have h := emailHandler_no_files_single_text_push (mkFormEnv none none)
    testFormReqNoFiles rfl
  rw [h]; rfl

/-- C8: a file whose sniffed content type is outside the six supported
MIME types (or could not be sniffed at all) contributes no chat message
and raises no error: the handler still pushes the leading text message
and answers 200. -/
theorem emailHandler_unsupported_file_dropped (env : FormEnv) (req : FormReq)
    (f : FormFile) (i : Nat) (hf : req.files = [f])
    (hns : env.sniff f.buffer ∉ ([some "image/jpeg", some "image/png",
      some "video/mp4", some "video/x-m4v", some "audio/mp4",
      some "audio/x-m4a"] : List (Option String))) :
    (classifyFile env i f).2 = none ∧
    (emailHandler env req).pushes =
      [{ toAddr := env.groupId, message := leadTextMessage req }] ∧
    (emailHandler env req).status = 200 := by
  simp only [List.mem_cons, List.mem_singleton, not_or] at hns
  obtain ⟨h1, h2, h3, h4, h5, h6⟩ := hns
  refine ⟨?_, ?_, rfl⟩
  · simp [classifyFile, h1, h2, h3, h4, h5, h6]
  · simp [emailHandler, hf, classifyFile, h1, h2, h3, h4, h5, h6]

/-- C8 witness: a `text/plain` file is dropped while the text message is
still pushed. -/
theorem emailHandler_unsupported_file_dropped_witness :
    (classifyFile (mkFormEnv (some "text/plain") none) 0 testFormFile).2 = none ∧
    (emailHandler (mkFormEnv (some "text/plain") none) testFormReq).pushes =
      [{ toAddr := "G1", message := leadTextMessage testFormReq }] ∧
    (emailHandler (mkFormEnv (some "text/plain") none) testFormReq).status = 200 :=
  emailHandler_unsupported_file_dropped (mkFormEnv (some "text/plain") none)
    testFormReq testFormFile 0 rfl (by decide)

/-- C9: for every submission the storage side effects are exactly, per
uploaded file in order, a save of the buffer under the fresh
`line-to-email/{uuid}-{name}` key followed by marking that key public —
independent of the sniffed content type, so they occur also for files
that produce no chat message. -/
theorem emailHandler_storage_effects_every_file (env : FormEnv) (req : FormReq) :
    (emailHandler env req).storage =
      concatMap (fun p => [StorageEffect.save (gcsKey env p.1 p.2) p.2.buffer,
        StorageEffect.makePublic (gcsKey env p.1 p.2)]) req.files.enum := by
  show concatMap (fun x => x.1)
      ((req.files.enum).map (fun p => classifyFile env p.1 p.2)) = _
  rw [concatMap_map]
  rfl

end LineToEmail
